import Mathlib

/-!
Shallow embedding of `src/api/src/stampy_chat/db/session.py` (stampy-chat).

The file defines two components:

* `make_session(auto_commit=False)` — a context-managed session factory:
  `with Session(engine, autoflush=False) as session: yield session;
   if auto_commit: session.commit()`.
  The `with Session(...)` block closes the session on both normal and
  exceptional exit; an exception raised by the caller's block propagates
  unchanged and skips the commit.

* `ItemAdder` — a batch writer holding `engine`, `batch_size`, `save_every`,
  a `session`, a cumulative `_counter` and a `_last_save` timestamp.
  `add(*items)` registers the items with the session, increments the counter
  and then (inside `get_session`'s post-yield code) commits when
  `(self._counter % self.batch_size) == 0 or
   time.time() - self._last_save > self.save_every`.
  `commit()` tries `session.commit()`; on `SQLAlchemyError` it logs a
  warning, rolls the session back and re-raises; on success it sets
  `_last_save = time.time()`.

External effects are made explicit parameters: each call to `time.time()`
within one operation is modelled by a `now : Nat` argument, and whether the
database accepts a commit by a `dbOk : Bool` argument.  Log calls are
recorded as a trace of `LogEvent`s.  Items are opaque, modelled as `Nat`.
-/

/-- Database items are opaque; we model them as natural numbers. -/
abbrev Item := Nat

/-- Log calls made by the code, in order. -/
inductive LogEvent where
  /-- `logger.warn('Got error when trying to commit to database: %s', e)` -/
  | warnCommitError
  /-- `logger.info('No session - creating new one')` -/
  | infoNewSession
  /-- `logger.info('Commiting batch to database')` -/
  | infoCommitting
  /-- `logger.debug('added %s items', len(items))` -/
  | debugAdded (n : Nat)
deriving DecidableEq, Repr

/-- A SQLAlchemy `Session`: bound to an engine, buffering pending (added,
uncommitted) items. Engines are opaque, modelled as `Nat`. -/
structure Sess where
  engine : Nat
  pending : List Item
deriving DecidableEq, Repr

/-- `session.add_all(items)`: registers the items with the session without
committing them. -/
def Sess.addAll (s : Sess) (items : List Item) : Sess :=
  { s with pending := s.pending ++ items }

/-- The state of an `ItemAdder` instance, together with the set of rows the
database has durably committed (`db`).  `session = none` models
`self.session` being `None` (falsy) after an external close. -/
structure AdderState where
  engine : Nat
  batch_size : Nat
  save_every : Nat
  session : Option Sess
  db : List Item
  counter : Nat
  last_save : Nat
deriving DecidableEq, Repr

/-- The items currently registered with the adder's session (empty when the
session is absent). -/
def AdderState.pendingOf (st : AdderState) : List Item :=
  match st.session with
  | none => []
  | some s => s.pending

/-- `ItemAdder.__init__(engine, batch_size, save_every)` evaluated at
construction time `now` (the `time.time()` stored into `_last_save`).
The Python defaults are `batch_size=100`, `save_every=1`. -/
def ItemAdder.init (engine batch_size save_every now : Nat) : AdderState :=
  { engine := engine
    batch_size := batch_size
    save_every := save_every
    session := some { engine := engine, pending := [] }
    db := []
    counter := 0
    last_save := now }

/-- Result of a call to `ItemAdder.commit`: the new state, whether the call
raised, and the log trace it produced. -/
structure CommitResult where
  state : AdderState
  raised : Bool
  log : List LogEvent
deriving DecidableEq, Repr

/-- `ItemAdder.commit(self)` with the database's answer `dbOk` to
`session.commit()` and the `time.time()` of the success path as `now`.
On `SQLAlchemyError` (`dbOk = false`) it logs a warning, rolls back
(discarding the session's pending items) and re-raises; on success the
pending items are persisted to `db` and `_last_save` is set to `now`.
When `self.session` is `None`, `None.commit()` raises an `AttributeError`
which the `except SQLAlchemyError` clause does not catch: the state is
left untouched and the exception propagates. -/
def ItemAdder.commit (st : AdderState) (dbOk : Bool) (now : Nat) : CommitResult :=
  match st.session with
  | none => { state := st, raised := true, log := [] }
  | some s =>
    if dbOk then
      { state := { st with session := some { s with pending := [] }
                           db := st.db ++ s.pending
                           last_save := now }
        raised := false
        log := [] }
    else
      { state := { st with session := some { s with pending := [] } }
        raised := true
        log := [LogEvent.warnCommitError] }

/-- The first half of `ItemAdder.get_session`:
`if not self.session: logger.info(...); self.session = Session(self.engine)`.
Returns the updated state and the log trace. -/
def ItemAdder.ensureSession (st : AdderState) : AdderState × List LogEvent :=
  match st.session with
  | none => ({ st with session := some { engine := st.engine, pending := [] } },
             [LogEvent.infoNewSession])
  | some _ => (st, [])

/-- Result of a call to `ItemAdder.add`: the new state, whether the
post-yield code of `get_session` attempted a commit, whether the call
raised, and the log trace. -/
structure AddResult where
  state : AdderState
  commitAttempted : Bool
  raised : Bool
  log : List LogEvent
deriving DecidableEq, Repr

/-- `ItemAdder.add(self, *items)`:
`with self.get_session() as session: session.add_all(items);
 self._counter += len(items)` followed by a debug log.  The post-yield code
of `get_session` runs after the body:
`if (self._counter % self.batch_size) == 0 or
    time.time() - self._last_save > self.save_every: logger.info(...);
    self.commit()`.
`now` models the `time.time()` calls made during this `add`; `dbOk` whether
the database accepts a commit, should one be attempted.  If the triggered
commit raises, the exception propagates out of `add` and the trailing debug
log is not reached. -/
def ItemAdder.add (st : AdderState) (items : List Item) (now : Nat) (dbOk : Bool) :
    AddResult :=
  let es := ItemAdder.ensureSession st
  let st1 := es.1
  let st2 : AdderState :=
    { st1 with session := st1.session.map (fun s => s.addAll items)
               counter := st1.counter + items.length }
  if st2.counter % st2.batch_size = 0 ∨ now - st2.last_save > st2.save_every then
    let c := ItemAdder.commit st2 dbOk now
    { state := c.state
      commitAttempted := true
      raised := c.raised
      log := es.2 ++ [LogEvent.infoCommitting] ++ c.log ++
             (if c.raised then [] else [LogEvent.debugAdded items.length]) }
  else
    { state := st2
      commitAttempted := false
      raised := false
      log := es.2 ++ [LogEvent.debugAdded items.length] }

/-- A factory `Session`: its buffer of pending writes. `closed` records
whether the `with Session(...)` block has released it. -/
structure FSession where
  pending : List Item
  closed : Bool
deriving DecidableEq, Repr

/-- The session handed to the caller's block by `make_session`. -/
def FSession.fresh : FSession :=
  { pending := [], closed := false }

/-- Outcome of running `make_session` around a caller's block: whether the
session was closed, how many times the factory committed it, which writes
the commit persisted, and the exception (if any) that propagated. -/
structure FactoryOutcome (E : Type) where
  sessionClosed : Bool
  commits : Nat
  persisted : List Item
  raised : Option E
deriving DecidableEq, Repr

/-- `make_session(auto_commit=False)`:
`with Session(engine, autoflush=False) as session: yield session;
 if auto_commit: session.commit()`.
The caller's block (`body`) either finishes normally with the session in
some final state, or raises an exception `e` with the session in some
state; in both cases the `with Session(...)` block closes the session.
Only on normal exit, and only when `auto_commit` is set, does the factory
commit the session (persisting its pending writes). -/
def make_session {E : Type} (auto_commit : Bool)
    (body : FSession → Except (E × FSession) FSession) : FactoryOutcome E :=
  match body FSession.fresh with
  | .ok s1 =>
    if auto_commit then
      { sessionClosed := true, commits := 1, persisted := s1.pending, raised := none }
    else
      { sessionClosed := true, commits := 0, persisted := [], raised := none }
  | .error (e, _) =>
    { sessionClosed := true, commits := 0, persisted := [], raised := some e }

/-- Helper: `add` attempts a commit exactly when the incremented counter is
0 modulo batch_size or the elapsed time strictly exceeds save_every. -/
theorem add_commitAttempted_iff (st : AdderState) (items : List Item)
    (now : Nat) (dbOk : Bool) :
    (ItemAdder.add st items now dbOk).commitAttempted = true ↔
      ((st.counter + items.length) % st.batch_size = 0 ∨
        now - st.last_save > st.save_every) := by
  obtain ⟨eng, B, S, sess, db, cnt, ls⟩ := st
  cases sess with
  | none =>
    simp only [ItemAdder.add, ItemAdder.ensureSession, Option.map]
    split_ifs with h <;> simp_all
  | some s =>
    simp only [ItemAdder.add, ItemAdder.ensureSession, Option.map]
    split_ifs with h <;> simp_all

/-- C1: for every `add` call that registers its items, after the cumulative
counter has been incremented by the number of items passed, a commit of the
session is attempted if and only if the counter is congruent to 0 modulo
`batch_size` or strictly more than `save_every` has elapsed since the last
successful commit (or construction); when the triggered commit succeeds it
persists the items of the current call together with the previously pending
ones. -/
theorem add_commit_iff_policy (st : AdderState) (items : List Item)
    (now : Nat) (dbOk : Bool) (hB : 0 < st.batch_size) :
    ((ItemAdder.add st items now dbOk).commitAttempted = true ↔
      ((st.counter + items.length) % st.batch_size = 0 ∨
        now - st.last_save > st.save_every)) ∧
    ((ItemAdder.add st items now dbOk).commitAttempted = true → dbOk = true →
      (ItemAdder.add st items now dbOk).state.db =
        st.db ++ (st.pendingOf ++ items)) := by
  obtain ⟨eng, B, S, sess, db, cnt, ls⟩ := st
  cases sess with
  | none =>
    simp only [ItemAdder.add, ItemAdder.ensureSession, ItemAdder.commit,
      AdderState.pendingOf, Sess.addAll, Option.map]
    split_ifs with h <;> simp_all
  | some s =>
    simp only [ItemAdder.add, ItemAdder.ensureSession, ItemAdder.commit,
      AdderState.pendingOf, Sess.addAll, Option.map]
    split_ifs with h <;> simp_all

/-- C1 witness: a fresh adder with batch_size 3, save_every 1000, built at
time 0; an `add` of three items at time 0 lands the counter on 3, so a
commit is attempted and the items are persisted. -/
theorem add_commit_iff_policy_witness :
    ((ItemAdder.add (ItemAdder.init 0 3 1000 0) [1, 2, 3] 0 true).commitAttempted
        = true ↔
      ((ItemAdder.init 0 3 1000 0).counter + [1, 2, 3].length) % 3 = 0 ∨
        0 - (ItemAdder.init 0 3 1000 0).last_save > 1000) ∧
    ((ItemAdder.add (ItemAdder.init 0 3 1000 0) [1, 2, 3] 0 true).commitAttempted
        = true → true = true →
      (ItemAdder.add (ItemAdder.init 0 3 1000 0) [1, 2, 3] 0 true).state.db =
        (ItemAdder.init 0 3 1000 0).db ++
          ((ItemAdder.init 0 3 1000 0).pendingOf ++ [1, 2, 3])) :=
  add_commit_iff_policy (ItemAdder.init 0 3 1000 0) [1, 2, 3] 0 true (by decide)

/-- C2 counterexample: batch_size 3, save_every 1000, constructed at time 0.
Two `add` calls of two items each, both at time 0 (so no time-based commit
can preempt), move the cumulative counter from 0 to 2 and then to 4 —
crossing the multiple 3 without landing on it — yet neither call attempts
a commit. -/
theorem add_crossing_multiple_without_commit :
    (ItemAdder.add (ItemAdder.init 0 3 1000 0) [1, 2] 0 true).state.counter = 2 ∧
    (ItemAdder.add
        (ItemAdder.add (ItemAdder.init 0 3 1000 0) [1, 2] 0 true).state
        [3, 4] 0 true).state.counter = 4 ∧
    ¬(0 - (ItemAdder.init 0 3 1000 0).last_save >
        (ItemAdder.init 0 3 1000 0).save_every) ∧
    ¬(0 - (ItemAdder.add (ItemAdder.init 0 3 1000 0) [1, 2] 0 true).state.last_save >
        (ItemAdder.add (ItemAdder.init 0 3 1000 0) [1, 2] 0 true).state.save_every) ∧
    (ItemAdder.add (ItemAdder.init 0 3 1000 0) [1, 2] 0 true).commitAttempted
      = false ∧
    (ItemAdder.add
        (ItemAdder.add (ItemAdder.init 0 3 1000 0) [1, 2] 0 true).state
        [3, 4] 0 true).commitAttempted = false := by
  decide

/-- C2 (amended): absent a time-based trigger, a count-triggered commit
occurs in an `add` call exactly when the cumulative counter lands exactly
on a multiple of batch_size after the call; a call that moves the counter
past a multiple without landing on it triggers no commit. -/
theorem add_count_trigger_iff_exact_multiple (st : AdderState)
    (items : List Item) (now : Nat) (dbOk : Bool) (hB : 0 < st.batch_size)
    (hT : ¬ now - st.last_save > st.save_every) :
    (ItemAdder.add st items now dbOk).commitAttempted = true ↔
      (st.counter + items.length) % st.batch_size = 0 := by
  rw [add_commitAttempted_iff]
  exact ⟨fun h => h.resolve_right hT, fun h => Or.inl h⟩

/-- C2 witness: batch_size 3, save_every 1000, three items in one call at
time 0 land the counter exactly on 3, so a commit is attempted. -/
theorem add_count_trigger_iff_exact_multiple_witness :
    (ItemAdder.add (ItemAdder.init 0 3 1000 0) [1, 2, 3] 0 true).commitAttempted
      = true :=
  (add_count_trigger_iff_exact_multiple (ItemAdder.init 0 3 1000 0) [1, 2, 3]
    0 true (by decide) (by decide)).mpr (by decide)

/-- C3: when the underlying `session.commit()` raises a database error,
`ItemAdder.commit` logs exactly one warning, rolls the session back
(discarding its pending uncommitted items, persisting nothing) and
re-raises with no retry; when it succeeds, `_last_save` is set to the
current time; and an `add` call after a failed commit still succeeds. -/
theorem commit_failure_behavior (st : AdderState) (s : Sess)
    (now now' : Nat) (items : List Item) (hs : st.session = some s) :
    (ItemAdder.commit st false now).raised = true ∧
    (ItemAdder.commit st false now).log = [LogEvent.warnCommitError] ∧
    (ItemAdder.commit st false now).state.session = some { s with pending := [] } ∧
    (ItemAdder.commit st false now).state.db = st.db ∧
    (ItemAdder.commit st true now).state.last_save = now ∧
    (ItemAdder.add (ItemAdder.commit st false now).state items now' true).raised
      = false := by
  obtain ⟨eng, B, S, sess, db, cnt, ls⟩ := st
  subst hs
  refine ⟨rfl, rfl, rfl, rfl, rfl, ?_⟩
  simp only [ItemAdder.commit, ItemAdder.add, ItemAdder.ensureSession, Option.map]
  split_ifs <;> rfl

/-- C3 witness: a freshly constructed adder (batch_size 3, save_every 1000,
built at time 7) whose session is present; the failing commit at time 9 and
a following `add` of one item at time 11 behave as stated. -/
theorem commit_failure_behavior_witness :
    (ItemAdder.commit (ItemAdder.init 0 3 1000 7) false 9).raised = true ∧
    (ItemAdder.commit (ItemAdder.init 0 3 1000 7) false 9).log
      = [LogEvent.warnCommitError] ∧
    (ItemAdder.commit (ItemAdder.init 0 3 1000 7) false 9).state.session
      = some { engine := 0, pending := [] } ∧
    (ItemAdder.commit (ItemAdder.init 0 3 1000 7) false 9).state.db
      = (ItemAdder.init 0 3 1000 7).db ∧
    (ItemAdder.commit (ItemAdder.init 0 3 1000 7) true 9).state.last_save = 9 ∧
    (ItemAdder.add (ItemAdder.commit (ItemAdder.init 0 3 1000 7) false 9).state
        [4] 11 true).raised = false :=
  commit_failure_behavior (ItemAdder.init 0 3 1000 7)
    { engine := 0, pending := [] } 9 11 [4] rfl

/-- C4: `ItemAdder.commit` never modifies the cumulative counter, whether it
succeeds or fails (or even finds no session); the counter is incremented
only by `add`, by exactly the number of items passed, and is never reset. -/
theorem counter_cumulative_never_reset (st : AdderState) (dbOk : Bool)
    (now : Nat) (items : List Item) :
    (ItemAdder.commit st dbOk now).state.counter = st.counter ∧
    (ItemAdder.add st items now dbOk).state.counter
      = st.counter + items.length := by
  obtain ⟨eng, B, S, sess, db, cnt, ls⟩ := st
  cases sess <;> cases dbOk <;>
    (refine ⟨rfl, ?_⟩
     simp only [ItemAdder.add, ItemAdder.ensureSession, ItemAdder.commit,
       Option.map]
     split_ifs <;> rfl)

/-- C5: if, when an `add` call evaluates the commit policy, strictly more
than `save_every` time-units have elapsed since the last successful commit
(or construction), and the size condition did not already trigger, that
`add` call attempts a commit. -/
theorem add_time_trigger (st : AdderState) (items : List Item) (now : Nat)
    (dbOk : Bool) (hB : 0 < st.batch_size)
    (hsz : (st.counter + items.length) % st.batch_size ≠ 0)
    (hT : now - st.last_save > st.save_every) :
    (ItemAdder.add st items now dbOk).commitAttempted = true :=
  (add_commitAttempted_iff st items now dbOk).mpr (Or.inr hT)

/-- C5 witness: adder built at time 0 with batch_size 100 and save_every 1;
an `add` of one item at time 5 has 5 > 1 elapsed and 1 % 100 ≠ 0, and it
attempts a commit. -/
theorem add_time_trigger_witness :
    (ItemAdder.add (ItemAdder.init 0 100 1 0) [1] 5 true).commitAttempted
      = true :=
  add_time_trigger (ItemAdder.init 0 100 1 0) [1] 5 true (by decide)
    (by decide) (by decide)

/-- C6: when the caller's block exits normally, `make_session` with
`auto_commit = true` commits the session exactly once, persisting the
writes made inside the scope; with `auto_commit = false` (the default) the
factory performs no commit. -/
theorem make_session_auto_commit {E : Type}
    (body : FSession → Except (E × FSession) FSession) (s1 : FSession)
    (h : body FSession.fresh = .ok s1) :
    (make_session true body).commits = 1 ∧
    (make_session true body).persisted = s1.pending ∧
    (make_session false body).commits = 0 ∧
    (make_session false body).persisted = [] := by
  simp [make_session, h]

/-- C6 witness: a block that writes the single row 5 and exits normally. -/
theorem make_session_auto_commit_witness :
    (make_session (E := Nat) true
        (fun s => .ok { s with pending := s.pending ++ [5] })).commits = 1 ∧
    (make_session (E := Nat) true
        (fun s => .ok { s with pending := s.pending ++ [5] })).persisted
      = ({ FSession.fresh with pending := FSession.fresh.pending ++ [5] }
          : FSession).pending ∧
    (make_session (E := Nat) false
        (fun s => .ok { s with pending := s.pending ++ [5] })).commits = 0 ∧
    (make_session (E := Nat) false
        (fun s => .ok { s with pending := s.pending ++ [5] })).persisted = [] :=
  make_session_auto_commit (fun s => .ok { s with pending := s.pending ++ [5] })
    { FSession.fresh with pending := FSession.fresh.pending ++ [5] } rfl

/-- C7: when the caller's block raises, `make_session` closes the underlying
session, performs no commit regardless of the `auto_commit` flag, and lets
the exception propagate unchanged. -/
theorem make_session_exception_path {E : Type} (ac : Bool)
    (body : FSession → Except (E × FSession) FSession) (e : E) (s1 : FSession)
    (h : body FSession.fresh = .error (e, s1)) :
    (make_session ac body).sessionClosed = true ∧
    (make_session ac body).commits = 0 ∧
    (make_session ac body).raised = some e := by
  simp [make_session, h]

/-- C7 witness: a block that writes the row 5 and then raises exception 42,
run with auto_commit = true. -/
theorem make_session_exception_path_witness :
    (make_session (E := Nat) true
        (fun s => .error (42, { s with pending := s.pending ++ [5] }))).sessionClosed
      = true ∧
    (make_session (E := Nat) true
        (fun s => .error (42, { s with pending := s.pending ++ [5] }))).commits
      = 0 ∧
    (make_session (E := Nat) true
        (fun s => .error (42, { s with pending := s.pending ++ [5] }))).raised
      = some 42 :=
  make_session_exception_path true
    (fun s => .error (42, { s with pending := s.pending ++ [5] }))
    42 { FSession.fresh with pending := FSession.fresh.pending ++ [5] } rfl

/-- C8: an `add` call on an adder whose session is absent creates a fresh
session bound to the adder's stored engine (logging the recreation) before
registering its items, so the items land in a valid open session; when a
session is already present it is reused unchanged.  (The commit condition
is assumed false so the session contents can be observed after the call.) -/
theorem add_recreates_absent_session (st : AdderState) (items : List Item)
    (now : Nat) (dbOk : Bool) (s : Sess)
    (hcond : ¬((st.counter + items.length) % st.batch_size = 0 ∨
               now - st.last_save > st.save_every)) :
    (ItemAdder.ensureSession { st with session := none }).1
      = { st with session := some { engine := st.engine, pending := [] } } ∧
    (ItemAdder.ensureSession { st with session := none }).2
      = [LogEvent.infoNewSession] ∧
    (ItemAdder.add { st with session := none } items now dbOk).state.session
      = some { engine := st.engine, pending := items } ∧
    ItemAdder.ensureSession { st with session := some s }
      = ({ st with session := some s }, []) ∧
    (ItemAdder.add { st with session := some s } items now dbOk).state.session
      = some { engine := s.engine, pending := s.pending ++ items } := by
  obtain ⟨eng, B, S, sess, db, cnt, ls⟩ := st
  refine ⟨rfl, rfl, ?_, rfl, ?_⟩ <;>
    simp [ItemAdder.add, ItemAdder.ensureSession, Option.map, Sess.addAll,
      hcond]

/-- C8 witness: an adder (batch_size 3, save_every 1000, built at time 0)
whose session was externally closed; one `add` of two items at time 0
recreates the session on the stored engine and registers the items, while
the same call on the untouched adder reuses its session. -/
theorem add_recreates_absent_session_witness :
    (ItemAdder.ensureSession
        { ItemAdder.init 7 3 1000 0 with session := none }).1
      = { ItemAdder.init 7 3 1000 0 with
          session := some { engine := 7, pending := [] } } ∧
    (ItemAdder.ensureSession
        { ItemAdder.init 7 3 1000 0 with session := none }).2
      = [LogEvent.infoNewSession] ∧
    (ItemAdder.add { ItemAdder.init 7 3 1000 0 with session := none }
        [1, 2] 0 true).state.session
      = some { engine := 7, pending := [1, 2] } ∧
    ItemAdder.ensureSession
        { ItemAdder.init 7 3 1000 0 with
          session := some { engine := 7, pending := [] } }
      = ({ ItemAdder.init 7 3 1000 0 with
           session := some { engine := 7, pending := [] } }, []) ∧
    (ItemAdder.add
        { ItemAdder.init 7 3 1000 0 with
          session := some { engine := 7, pending := [] } }
        [1, 2] 0 true).state.session
      = some { engine := 7, pending := [] ++ [1, 2] } :=
  add_recreates_absent_session (ItemAdder.init 7 3 1000 0) [1, 2] 0 true
    { engine := 7, pending := [] } (by decide)

/-- C9: a failed `ItemAdder.commit` leaves `_last_save` unchanged (it is
updated only on success), so if the time-based condition held before the
failed attempt it still holds — under monotonic time — at the next `add`
call's policy evaluation, which therefore re-attempts the commit. -/
theorem failed_commit_preserves_time_trigger (st : AdderState)
    (items : List Item) (now0 now1 : Nat) (dbOk' : Bool)
    (hmono : now0 ≤ now1)
    (hheld : now0 - st.last_save > st.save_every) :
    (ItemAdder.commit st false now0).state.last_save = st.last_save ∧
    (ItemAdder.add (ItemAdder.commit st false now0).state items now1
        dbOk').commitAttempted = true := by
  obtain ⟨eng, B, S, sess, db, cnt, ls⟩ := st
  have hT : now1 - ls > S := lt_of_lt_of_le hheld (Nat.sub_le_sub_right hmono ls)
  cases sess with
  | none =>
    exact ⟨rfl, (add_commitAttempted_iff _ items now1 dbOk').mpr (Or.inr hT)⟩
  | some s =>
    exact ⟨rfl, (add_commitAttempted_iff _ items now1 dbOk').mpr (Or.inr hT)⟩

/-- C9 witness: adder built at time 0 with save_every 1000; the commit
failing at time 2000 keeps `_last_save = 0`, and the `add` at time 3000
re-attempts the commit. -/
theorem failed_commit_preserves_time_trigger_witness :
    (ItemAdder.commit (ItemAdder.init 0 3 1000 0) false 2000).state.last_save
      = (ItemAdder.init 0 3 1000 0).last_save ∧
    (ItemAdder.add
        (ItemAdder.commit (ItemAdder.init 0 3 1000 0) false 2000).state
        [1] 3000 true).commitAttempted = true :=
  failed_commit_preserves_time_trigger (ItemAdder.init 0 3 1000 0) [1]
    2000 3000 true (by decide) (by decide)

/-- C10: whenever the cumulative counter is a multiple of batch_size — in
particular on a freshly constructed adder, whose counter is 0 — an `add`
call with zero items still attempts a commit: the size condition is
evaluated and holds even though no items were passed. -/
theorem add_zero_items_triggers_commit (st : AdderState) (now : Nat)
    (dbOk : Bool) (hB : 0 < st.batch_size)
    (hmul : st.counter % st.batch_size = 0) :
    (ItemAdder.add st [] now dbOk).commitAttempted = true :=
  (add_commitAttempted_iff st [] now dbOk).mpr (Or.inl (by simpa using hmul))

/-- C10 witness: a freshly constructed adder with the Python defaults
(batch_size 100, save_every 1), built at time 0; `add()` with no items at
time 0 attempts a commit. -/
theorem add_zero_items_triggers_commit_witness :
    (ItemAdder.add (ItemAdder.init 0 100 1 0) [] 0 true).commitAttempted
      = true :=
  add_zero_items_triggers_commit (ItemAdder.init 0 100 1 0) 0 true
    (by decide) (by decide)
